import Mathlib

/-!
Verification of the `deep-learning-with-pytorch` notebooks
(`02_on_tensors.ipynb`, `03_autograd.ipynb`).

The repository's authored code is a sequence of notebook cells calling an
external tensor library.  The library itself is not part of the repository,
so its behaviour (tensor arithmetic, the reverse-mode autograd engine, the
storage/view aliasing model, error raising) is modelled here from the spec's
description of it; the notebook cells themselves (the values they build, the
expressions they evaluate, the loops they run) are transcribed faithfully
from the notebook sources.
-/

/-! ### 2×2 tensors of exact rationals

`03_autograd.ipynb` works with 2×2 float tensors whose entries are exactly
representable; we model them as 2×2 matrices of rationals. -/

/-- A 2×2 tensor value: `e00 e01 / e10 e11` in row-major order. -/
structure Mat2 where
  e00 : ℚ
  e01 : ℚ
  e10 : ℚ
  e11 : ℚ
deriving DecidableEq

/-- Elementwise addition, as torch `+` on same-shape tensors. -/
def Mat2.add (x y : Mat2) : Mat2 :=
  ⟨x.e00 + y.e00, x.e01 + y.e01, x.e10 + y.e10, x.e11 + y.e11⟩

/-- Elementwise (Hadamard) product, as torch `*` on same-shape tensors. -/
def Mat2.hmul (x y : Mat2) : Mat2 :=
  ⟨x.e00 * y.e00, x.e01 * y.e01, x.e10 * y.e10, x.e11 * y.e11⟩

/-- Scalar multiple of every entry. -/
def Mat2.smul (c : ℚ) (x : Mat2) : Mat2 :=
  ⟨c * x.e00, c * x.e01, c * x.e10, c * x.e11⟩

/-- The constant tensor with every entry `c`. -/
def Mat2.const (c : ℚ) : Mat2 := ⟨c, c, c, c⟩

/-- `torch.mean` of a 2×2 tensor: sum of the four entries over 4. -/
def Mat2.mean (x : Mat2) : ℚ := (x.e00 + x.e01 + x.e10 + x.e11) / 4

/-- The all-zero tensor. -/
def Mat2.zero : Mat2 := Mat2.const 0

/-! ### The autograd expression graph

Modelled from the spec: "Autograd graph: a record of operations built during
evaluation, traversed backward to compute gradients via the chain rule
(external library concept, not implemented here)."  The library's engine is
absent from `src/`; we embed the graph the notebook builds as an expression
tree over the two leaves `a` and `b`, with a `retainGrad` marker for the
notebook's `d.retain_grad()` call. -/

/-- Matrix-valued nodes of the graph built in `03_autograd.ipynb`:
the leaves `a`, `b`, elementwise `+` and `*`, and a `retain_grad` marker. -/
inductive MExpr
  | leafA : MExpr
  | leafB : MExpr
  | madd : MExpr → MExpr → MExpr
  | mmul : MExpr → MExpr → MExpr
  | retainGrad : MExpr → MExpr
deriving DecidableEq

/-- Scalar-valued nodes: `torch.mean` of a matrix node, and scalar `+`. -/
inductive SExpr
  | smean : MExpr → SExpr
  | sadd : SExpr → SExpr → SExpr
deriving DecidableEq

/-- Forward evaluation of a matrix node, given the leaf values. -/
def evalM (va vb : Mat2) : MExpr → Mat2
  | .leafA => va
  | .leafB => vb
  | .madd x y => (evalM va vb x).add (evalM va vb y)
  | .mmul x y => (evalM va vb x).hmul (evalM va vb y)
  | .retainGrad x => evalM va vb x

/-- Forward evaluation of a scalar node. -/
def evalS (va vb : Mat2) : SExpr → ℚ
  | .smean m => (evalM va vb m).mean
  | .sadd x y => evalS va vb x + evalS va vb y

/-- The result of one backward traversal: gradients accumulated at the two
leaves, together with the adjoints recorded at `retain_grad`-marked nodes
(in traversal order). -/
structure Grads where
  gA : Mat2
  gB : Mat2
  retained : List Mat2
deriving DecidableEq

/-- Pointwise accumulation of two backward results. -/
def Grads.merge (p q : Grads) : Grads :=
  ⟨p.gA.add q.gA, p.gB.add q.gB, p.retained ++ q.retained⟩

/-- Modelled from the spec: the backward traversal of a matrix node.  `g` is
the adjoint (upstream gradient) arriving at the node; the chain rule sends
`g` unchanged through `+`, multiplies it elementwise by the other factor
through `*`, and deposits it at the leaves. -/
def gradM (va vb : Mat2) : MExpr → Mat2 → Grads
  | .leafA, g => ⟨g, Mat2.zero, []⟩
  | .leafB, g => ⟨Mat2.zero, g, []⟩
  | .madd x y, g => (gradM va vb x g).merge (gradM va vb y g)
  | .mmul x y, g =>
      (gradM va vb x (g.hmul (evalM va vb y))).merge
        (gradM va vb y (g.hmul (evalM va vb x)))
  | .retainGrad x, g =>
      let r := gradM va vb x g
      ⟨r.gA, r.gB, g :: r.retained⟩

/-- Modelled from the spec: the backward traversal of a scalar node with
upstream scalar adjoint `s`.  `mean` of a 2×2 tensor distributes `s/4` to
every entry; scalar `+` sends `s` to both summands. -/
def gradS (va vb : Mat2) : SExpr → ℚ → Grads
  | .smean m, s => gradM va vb m (Mat2.const (s / 4))
  | .sadd x y, s => (gradS va vb x s).merge (gradS va vb y s)

/-! ### The notebook's concrete graph

Transcribed from `03_autograd.ipynb`:
`a = torch.tensor([[1., 2], [3, 4]], requires_grad=True)`,
`b = torch.ones((2, 2), requires_grad=True)`,
`c = a + b; d = b * c; d = d + a; d.retain_grad();`
`e = torch.mean(d) + torch.mean(b)`. -/

/-- The leaf value `a = [[1,2],[3,4]]`. -/
def aVal : Mat2 := ⟨1, 2, 3, 4⟩

/-- The leaf value `b = torch.ones((2,2))`. -/
def bVal : Mat2 := ⟨1, 1, 1, 1⟩

/-- `c = a + b`. -/
def cExpr : MExpr := .madd .leafA .leafB

/-- `d = b * c; d = d + a; d.retain_grad()`. -/
def dExpr : MExpr := .retainGrad (.madd (.mmul .leafB cExpr) .leafA)

/-- `e = torch.mean(d) + torch.mean(b)`. -/
def eExpr : SExpr := .sadd (.smean dExpr) (.smean .leafB)

/-- The result of the single `e.backward()` call: backward traversal of `e`
with seed adjoint `1` at the notebook's leaf values. -/
def backwardE : Grads := gradS aVal bVal eExpr 1

/-- The symbolic gradient `de/da = (b+1)/4` claimed by the spec. -/
def gradFormulaA (vb : Mat2) : Mat2 := Mat2.smul (1/4) (vb.add (Mat2.const 1))

/-- The symbolic gradient `de/db = (a+2b)/4 + 1/2` as written in the claim. -/
def gradFormulaBHalf (va vb : Mat2) : Mat2 :=
  (Mat2.smul (1/4) (va.add (Mat2.smul 2 vb))).add (Mat2.const (1/2))

/-- The symbolic gradient `de/db = (a+2b)/4 + 1/4`, the correct chain-rule
value (the `torch.mean(b)` summand contributes `1/4` per entry, not `1/2`). -/
def gradFormulaBQuarter (va vb : Mat2) : Mat2 :=
  (Mat2.smul (1/4) (va.add (Mat2.smul 2 vb))).add (Mat2.const (1/4))

/-! ### `requires_grad` propagation

Modelled from the spec and the notebook narration: "If there is a single
input to an operation that requires gradient, its output will also require
gradient."  The flag is a per-leaf attribute propagated through every
operation by disjunction. -/

/-- `requires_grad` of a matrix node, given the flags of the leaves. -/
def reqM (ra rb : Bool) : MExpr → Bool
  | .leafA => ra
  | .leafB => rb
  | .madd x y => reqM ra rb x || reqM ra rb y
  | .mmul x y => reqM ra rb x || reqM ra rb y
  | .retainGrad x => reqM ra rb x

/-- `requires_grad` of a scalar node, given the flags of the leaves. -/
def reqS (ra rb : Bool) : SExpr → Bool
  | .smean m => reqM ra rb m
  | .sadd x y => reqS ra rb x || reqS ra rb y

/-! ### Population of the `.grad` attribute

Modelled from the spec and the notebook narration: after a backward pass the
`.grad` attribute is populated on graph leaves and on non-leaf tensors that
called `retain_grad()`; any other non-leaf keeps `.grad = None`, and before
any backward call `.grad` is `None` everywhere. -/

/-- The autograd-relevant metadata of a tensor variable. -/
structure NodeMeta where
  isLeaf : Bool
  retainsGrad : Bool
deriving DecidableEq

/-- Whether backward populates `.grad` on a tensor with metadata `m`. -/
def gradPopulated (m : NodeMeta) : Bool := m.isLeaf || m.retainsGrad

/-- The `.grad` attribute after a backward pass that computed gradient `v`
for the tensor: kept only where `gradPopulated` holds. -/
def gradAfterBackward (m : NodeMeta) (v : Mat2) : Option Mat2 :=
  if gradPopulated m then some v else none

/-- The `.grad` attribute before any backward call: `None`. -/
def gradBeforeBackward (_ : NodeMeta) : Option Mat2 := none

/-- Metadata of `a`: a leaf, no `retain_grad` call. -/
def aMeta : NodeMeta := ⟨true, false⟩

/-- Metadata of `b`: a leaf, no `retain_grad` call. -/
def bMeta : NodeMeta := ⟨true, false⟩

/-- Metadata of `c = a + b`: not a leaf, no `retain_grad` call. -/
def cMeta : NodeMeta := ⟨false, false⟩

/-- Metadata of `d`: not a leaf, but the notebook calls `d.retain_grad()`. -/
def dMeta : NodeMeta := ⟨false, true⟩

/-! ### Graph lifetime and repeated backward calls

Modelled from the spec and the notebook narration: "For memory efficiency,
the graph is deleted during the backward. If you want not the graph to be
freed, specify retain_graph=True".  A second backward over a freed graph
raises. -/

/-- The state of the recorded autograd graph: whether its buffers are
still alive. -/
structure AutogradGraph where
  alive : Bool
deriving DecidableEq

/-- `e.backward(retain_graph=r)`: succeeds only while the graph is alive,
and keeps it alive only when `retain_graph=True` was passed. -/
def backwardCall (retainGraph : Bool) (g : AutogradGraph) :
    Except String AutogradGraph :=
  if g.alive then .ok ⟨retainGraph⟩
  else .error "buffers have already been freed"

/-- Whether a library call raised an error. -/
def raises {α : Type} : Except String α → Bool
  | .error _ => true
  | .ok _ => false

/-- Gradient accumulation at the leaves: one `e.backward(retain_graph=True)`
pass adds the single-pass gradients into the `.grad` accumulators. -/
def accumStep (p : Mat2 × Mat2) : Mat2 × Mat2 :=
  (p.1.add backwardE.gA, p.2.add backwardE.gB)

/-- `n` backward passes starting from zeroed `.grad` accumulators
(`a.grad.zero_(); b.grad.zero_()` in the notebook). -/
def leafAccum : ℕ → Mat2 × Mat2
  | 0 => (Mat2.zero, Mat2.zero)
  | n + 1 => accumStep (leafAccum n)

/-- The notebook's `for i in range(3): e.backward(retain_graph=True)` as a
chain of graph-lifetime transitions. -/
def retainChain : Except String AutogradGraph :=
  (backwardCall true ⟨true⟩).bind (backwardCall true) >>= backwardCall true

/-! ### Shape-level and graph-attachment errors

Modelled from the spec: "a few cells are commented out specifically because
they would raise errors in the external library (e.g., shape-incompatible
transpose, requesting an array view of a value still attached to a
gradient-tracking graph)". -/

/-- `Tensor.t()` on a tensor of the given shape: defined only for tensors of
at most 2 dimensions, where it swaps the (up to) two axes; on anything of
higher dimension it raises. -/
def tTranspose (shape : List ℕ) : Except String (List ℕ) :=
  if shape.length ≤ 2 then .ok shape.reverse
  else .error "t() expects a tensor with at most 2 dimensions"

/-- The shape of `c = torch.randint(0, 10, size=(2, 3, 4, 5, 6))` in
`02_on_tensors.ipynb`. -/
def cShape : List ℕ := [2, 3, 4, 5, 6]

/-- `Tensor.numpy()` for a tensor with the given `requires_grad` flag:
raises while the tensor is still attached to the gradient-tracking graph,
otherwise returns an aliasing array view (modelled by `Unit` here; the
aliasing itself is modelled in the storage section below). -/
def numpyCall (requiresGrad : Bool) : Except String Unit :=
  if requiresGrad then
    .error "cannot call numpy() on a tensor that requires grad"
  else .ok ()

/-- `Tensor.detach()` at the flag level: the detached tensor no longer
requires grad. -/
def detachFlag (_ : Bool) : Bool := false

/-! ### Storage and views

Modelled from the spec: "a dense numeric buffer (storage) and a view over it
described by shape, stride, and offset (tensor)", together with the notebook
narration ".tensor() will make a copy of the argument / .numpy() will return
a view on the same memory elements".  A store is a list of flat buffers; a
view names the buffer it reads. -/

/-- The heap of allocated storages. -/
structure Store where
  bufs : List (List ℚ)
deriving DecidableEq

/-- A view over one storage (the notebook only uses whole-buffer views). -/
structure TView where
  sid : ℕ
deriving DecidableEq

/-- Read element `i` through a view. -/
def readAt (s : Store) (v : TView) (i : ℕ) : ℚ :=
  (s.bufs.getD v.sid []).getD i 0

/-- Write element `i` through a view. -/
def writeAt (s : Store) (v : TView) (i : ℕ) (q : ℚ) : Store :=
  ⟨s.bufs.set v.sid ((s.bufs.getD v.sid []).set i q)⟩

/-- `torch.tensor(src)`: allocates a fresh storage holding a copy of the
source buffer and returns a view on the new storage. -/
def torchTensorCopy (s : Store) (src : TView) : Store × TView :=
  (⟨s.bufs ++ [s.bufs.getD src.sid []]⟩, ⟨s.bufs.length⟩)

/-- `Tensor.numpy()` as a view: an array over the same storage. -/
def numpyView (v : TView) : TView := v

/-- The view held by the variable `arr_np` (the initial numpy array). -/
def arrNpView : TView := ⟨0⟩

/-- The initial heap: only `arr_np = np.random.randn(2, 3)` is allocated,
with contents `arr` (row-major, six entries). -/
def store0 (arr : List ℚ) : Store := ⟨[arr]⟩

/-- The heap after `tens = torch.tensor(arr_np)`. -/
def store1 (arr : List ℚ) : Store := (torchTensorCopy (store0 arr) arrNpView).1

/-- The view held by the variable `tens`. -/
def tensView (arr : List ℚ) : TView := (torchTensorCopy (store0 arr) arrNpView).2

/-- The heap after `tens[0, 0] = 10.0` (row-major index 0). -/
def store2 (arr : List ℚ) : Store := writeAt (store1 arr) (tensView arr) 0 10

/-- The view held by the variable `arr_from_tens = tens.numpy()`. -/
def arrFromTensView (arr : List ℚ) : TView := numpyView (tensView arr)

/-- The heap after `arr_from_tens[0, 1] = 20.0` (row-major index 1). -/
def store3 (arr : List ℚ) : Store :=
  writeAt (store2 arr) (arrFromTensView arr) 1 20

/-- The variable environment of the interoperability cells: which view each
notebook variable is bound to. -/
def varEnv : List (String × TView) :=
  [("arr_np", arrNpView), ("tens", ⟨1⟩), ("arr_from_tens", ⟨1⟩)]

/-- Look up the view a variable is bound to. -/
def lookupVar (n : String) : TView :=
  ((varEnv.find? (fun p => p.1 == n)).map Prod.snd).getD ⟨0⟩

/-- A concrete stand-in for the random contents of `arr_np`. -/
def arrZeros : List ℚ := [0, 0, 0, 0, 0, 0]

/-! ### The dynamic-graph loop

Transcribed from `03_autograd.ipynb`:
`x = torch.tensor([1., 2.], requires_grad=True); y = x.sum();`
`while y.data.norm() < 12: y = y * 1.2`.
`y` is a scalar, so `y.data.norm()` is its absolute value; `1.2 = 6/5`. -/

/-- The contents of `x`. -/
def xVec : List ℚ := [1, 2]

/-- One loop iteration: `y = y * 1.2`. -/
def mulStep (y : ℚ) : ℚ := y * (6/5)

/-- The `while y.data.norm() < 12` loop, run with explicit fuel.  Returns
the number of iterations executed and the final value of `y`; with enough
fuel this is exactly the notebook loop. -/
def dynLoop : ℕ → ℚ → ℕ × ℚ
  | 0, y => (0, y)
  | fuel + 1, y =>
      if |y| < 12 then
        let r := dynLoop fuel (mulStep y)
        (r.1 + 1, r.2)
      else (0, y)

/-! ### The notebooks as sequences of cells

A coarse but faithful syntactic transcription of every code cell of both
notebooks: each cell is the list of its top-level operations in order, each
operation classified by kind.  The operation language also has constructors
for effects the notebooks never perform (file writes, network connections,
CLI surfaces), so that their absence is a fact about the transcription, not
about the language. -/

/-- A simple (non-loop) statement of a notebook cell. -/
inductive SOp
  | importMod : SOp
  | assign : SOp
  | inPlaceWrite : SOp
  | printOut : SOp
  | display : SOp
  | fileWrite : SOp
  | networkOpen : SOp
  | cliExpose : SOp
deriving DecidableEq

/-- A top-level statement of a notebook cell: simple, a `for i in range(n)`
loop, or a data-dependent `while` loop. -/
inductive Op
  | simple : SOp → Op
  | forRange : ℕ → List SOp → Op
  | whileData : List SOp → Op
deriving DecidableEq

/-- A code cell is its list of top-level statements. -/
abbrev Cell := List Op

/-- The externally observable artifact kinds a statement could produce. -/
inductive Artifact
  | printedOutput : Artifact
  | fileArtifact : Artifact
  | networkArtifact : Artifact
  | cliArtifact : Artifact
deriving DecidableEq

/-- Artifacts produced by a simple statement: prints and cell-result
displays produce printed output; assignments and in-place writes only touch
in-process state. -/
def SOp.artifacts : SOp → List Artifact
  | .printOut => [.printedOutput]
  | .display => [.printedOutput]
  | .fileWrite => [.fileArtifact]
  | .networkOpen => [.networkArtifact]
  | .cliExpose => [.cliArtifact]
  | _ => []

/-- Whether every artifact a simple statement produces is printed output. -/
def SOp.onlyPrinted (s : SOp) : Bool :=
  s.artifacts.all (fun a => a == Artifact.printedOutput)

/-- Whether every artifact a statement produces, on any iteration, is
printed output. -/
def Op.onlyPrinted : Op → Bool
  | .simple s => s.onlyPrinted
  | .forRange _ body => body.all SOp.onlyPrinted
  | .whileData body => body.all SOp.onlyPrinted

/-- Whether a statement is straight-line (not a loop). -/
def Op.isStraight : Op → Bool
  | .simple _ => true
  | .forRange _ _ => false
  | .whileData _ => false

/-- The code cells of `02_on_tensors.ipynb`, in order, one list entry per
cell (execution counts 2–28). -/
def cells02 : List Cell :=
  [ -- import numpy / import torch / print(torch.__version__)
    [.simple .importMod, .simple .importMod, .simple .printOut],
    -- arr_np = randn; print; tens = torch.tensor(arr_np); print; print;
    -- tens[0, 0] = 10.0; print; print
    [.simple .assign, .simple .printOut, .simple .assign, .simple .printOut,
     .simple .printOut, .simple .inPlaceWrite, .simple .printOut,
     .simple .printOut],
    -- arr_from_tens = tens.numpy(); print; arr_from_tens[0, 1] = 20.0; print
    [.simple .assign, .simple .printOut, .simple .inPlaceWrite,
     .simple .printOut],
    -- tens_first_row / tens_element_as_py_obj / tens_as_list; three prints
    [.simple .assign, .simple .assign, .simple .assign, .simple .printOut,
     .simple .printOut, .simple .printOut],
    -- print(tens.size()); print(tens.shape)
    [.simple .printOut, .simple .printOut],
    -- eight factory-function prints
    [.simple .printOut, .simple .printOut, .simple .printOut,
     .simple .printOut, .simple .printOut, .simple .printOut,
     .simple .printOut, .simple .printOut],
    -- print(torch.FloatTensor(...)); print(torch.Tensor(2, 3))
    [.simple .printOut, .simple .printOut],
    -- print(torch.empty(2, 3)); print(...cauchy_()); print(...geometric_(0.7))
    [.simple .printOut, .simple .printOut, .simple .printOut],
    -- twotwo = ...; print; twotwo_sqrt = ...; print; print(shares_memory);
    -- twotwo.sqrt_(); print
    [.simple .assign, .simple .printOut, .simple .assign, .simple .printOut,
     .simple .printOut, .simple .inPlaceWrite, .simple .printOut],
    -- five dtype prints
    [.simple .printOut, .simple .printOut, .simple .printOut,
     .simple .printOut, .simple .printOut],
    -- four device prints
    [.simple .printOut, .simple .printOut, .simple .printOut,
     .simple .printOut],
    -- a = randn(3, 1); b = randn_like(a); print(a + b)
    [.simple .assign, .simple .assign, .simple .printOut],
    -- print(a @ b.T)
    [.simple .printOut],
    -- print(a.T)
    [.simple .printOut],
    -- print(a.t())
    [.simple .printOut],
    -- c = randint(0, 10, size=(2, 3, 4, 5, 6)); three shape prints
    [.simple .assign, .simple .printOut, .simple .printOut,
     .simple .printOut],
    -- print(c.dim()); print(c.numel()); print(torch.numel(c))
    [.simple .printOut, .simple .printOut, .simple .printOut],
    -- d = torch.tensor([[0, 1], [2, 467]]); print(d)
    [.simple .assign, .simple .printOut],
    -- print(d.view(-1, 4))
    [.simple .printOut],
    -- print(d.dim())
    [.simple .printOut],
    -- print(d.unsqueeze(0).size())
    [.simple .printOut],
    -- print(d.squeeze(0)); print(d.fill_(33))
    [.simple .printOut, .simple .inPlaceWrite, .simple .printOut],
    -- d (displayed)
    [.simple .display],
    -- d.resize_(4) (in place, displayed)
    [.simple .inPlaceWrite, .simple .display],
    -- e = torch.ones_like(d); print(torch.cat([d, e], dim=0))
    [.simple .assign, .simple .printOut],
    -- device = torch.device(...); print(device)
    [.simple .assign, .simple .printOut],
    -- e = e.to(device)
    [.simple .assign] ]

/-- The code cells of `03_autograd.ipynb`, in order, one list entry per
cell (execution counts 1–18). -/
def cells03 : List Cell :=
  [ -- import torch; a = ...; b = ...; `a, b` displayed
    [.simple .importMod, .simple .assign, .simple .assign, .simple .display],
    -- c = a + b; d = b * c; d = d + a; d.retain_grad(); e = mean + mean
    [.simple .assign, .simple .assign, .simple .assign,
     .simple .inPlaceWrite, .simple .assign],
    -- three requires_grad prints
    [.simple .printOut, .simple .printOut, .simple .printOut],
    -- from torchviz import make_dot; make_dot(e) displayed
    [.simple .importMod, .simple .display],
    -- print(b.grad)
    [.simple .printOut],
    -- e.backward()
    [.simple .inPlaceWrite],
    -- print(b.grad); print(a.grad)
    [.simple .printOut, .simple .printOut],
    -- print(c.grad)
    [.simple .printOut],
    -- print(d.grad)
    [.simple .printOut],
    -- the commented-out second e.backward()
    [],
    -- a.grad.zero_(); b.grad.zero_(); graph rebuilt;
    -- for i in range(3): e.backward(retain_graph=True)
    [.simple .inPlaceWrite, .simple .inPlaceWrite, .simple .assign,
     .simple .assign, .simple .assign, .simple .inPlaceWrite,
     .simple .assign, .forRange 3 [.inPlaceWrite]],
    -- print(b.grad)
    [.simple .printOut],
    -- x = ...; y = x.sum(); while y.data.norm() < 12: y = y * 1.2
    [.simple .assign, .simple .assign, .whileData [.assign]],
    -- make_dot(y) displayed
    [.simple .display],
    -- y.backward()
    [.simple .inPlaceWrite],
    -- x.grad displayed
    [.simple .display],
    -- print(x); print(x.detach()); print(x.detach().numpy())
    [.simple .printOut, .simple .printOut, .simple .printOut],
    -- x_dn = x.detach().numpy(); x[0] = 99; print(x_dn)
    [.simple .assign, .simple .inPlaceWrite, .simple .printOut] ]

/-- Artifacts produced by a top-level statement: a `for i in range(n)` loop
produces its body's artifacts `n` times; a `while` loop produces its body's
artifacts once per iteration (the kinds shown are those of one iteration). -/
def Op.artifacts : Op → List Artifact
  | .simple s => s.artifacts
  | .forRange n body => (List.replicate n body).flatMap (fun b => b.flatMap SOp.artifacts)
  | .whileData body => body.flatMap SOp.artifacts

/-- All top-level statements of a list of cells, in order. -/
def allOps (cs : List Cell) : List Op := cs.flatten

/-! ## Claims -/

/-- Claim C1 (counterexample): the claim's parenthetical formula
`de/db = (a+2b)/4 + 1/2` disagrees with the gradient the backward pass
computes (and with the matrix `[[1.0,1.25],[1.5,1.75]]` the claim itself
states): at entry (0,0) the formula gives `5/4` while `b.grad` is `1`. -/
theorem C1_formula_vs_printed_counterexample :
    backwardE.gB = ⟨1, 5/4, 3/2, 7/4⟩
    ∧ gradFormulaBHalf aVal bVal = ⟨5/4, 3/2, 7/4, 2⟩
    ∧ gradFormulaBHalf aVal bVal ≠ backwardE.gB := by
  refine ⟨?_, ?_, ?_⟩
  · norm_num [backwardE, gradS, gradM, evalM, eExpr, dExpr, cExpr, aVal, bVal,
      Mat2.add, Mat2.hmul, Mat2.const, Mat2.zero, Grads.merge]
  · norm_num [gradFormulaBHalf, aVal, bVal, Mat2.smul, Mat2.add, Mat2.const]
  · norm_num [gradFormulaBHalf, backwardE, gradS, gradM, evalM, eExpr, dExpr,
      cExpr, aVal, bVal, Mat2.add, Mat2.hmul, Mat2.const, Mat2.zero,
      Mat2.smul, Grads.merge, Mat2.mk.injEq]

/-- Claim C1 (amended): after `e.backward()`, `a.grad = [[0.5,0.5],[0.5,0.5]]`
and `b.grad = [[1.0,1.25],[1.5,1.75]]` as printed, and symbolically
`de/da = (b+1)/4` and `de/db = (a+2b)/4 + 1/4` (not `+ 1/2`) for arbitrary
leaf values. -/
theorem C1_backward_gradients :
    backwardE.gA = ⟨1/2, 1/2, 1/2, 1/2⟩
    ∧ backwardE.gB = ⟨1, 5/4, 3/2, 7/4⟩
    ∧ (∀ va vb : Mat2, (gradS va vb eExpr 1).gA = gradFormulaA vb)
    ∧ (∀ va vb : Mat2, (gradS va vb eExpr 1).gB = gradFormulaBQuarter va vb) := by
  refine ⟨?_, ?_, ?_, ?_⟩
  · norm_num [backwardE, gradS, gradM, evalM, eExpr, dExpr, cExpr, aVal, bVal,
      Mat2.add, Mat2.hmul, Mat2.const, Mat2.zero, Grads.merge]
  · norm_num [backwardE, gradS, gradM, evalM, eExpr, dExpr, cExpr, aVal, bVal,
      Mat2.add, Mat2.hmul, Mat2.const, Mat2.zero, Grads.merge]
  · intro va vb
    cases va; cases vb
    simp [gradS, gradM, evalM, eExpr, dExpr, cExpr, gradFormulaA,
      Mat2.add, Mat2.hmul, Mat2.const, Mat2.zero, Mat2.smul, Grads.merge,
      Mat2.mk.injEq]
    refine ⟨by ring, by ring, by ring, by ring⟩
  · intro va vb
    cases va; cases vb
    simp [gradS, gradM, evalM, eExpr, dExpr, cExpr, gradFormulaBQuarter,
      Mat2.add, Mat2.hmul, Mat2.const, Mat2.zero, Mat2.smul, Grads.merge,
      Mat2.mk.injEq]
    refine ⟨by ring, by ring, by ring, by ring⟩

/-- Claim C2: each commented-out `# error` cell would raise: `.t()` on the
5-dimensional tensor `c` raises; `.numpy()` on a tensor that requires grad
raises (while after `.detach()` it succeeds); and a second `e.backward()`
after the first freed the graph (no `retain_graph=True`) raises, the first
having succeeded. -/
theorem C2_commented_cells_raise :
    raises (tTranspose cShape) = true
    ∧ cShape.length = 5
    ∧ raises (numpyCall true) = true
    ∧ raises (numpyCall (detachFlag true)) = false
    ∧ backwardCall false ⟨true⟩ = .ok ⟨false⟩
    ∧ raises (backwardCall false ⟨true⟩) = false
    ∧ raises ((backwardCall false ⟨true⟩).bind (backwardCall false)) = true :=
  ⟨rfl, rfl, rfl, rfl, rfl, rfl, rfl⟩

/-- Claim C3: after zeroing the leaf gradients and rebuilding the graph,
three `e.backward(retain_graph=True)` passes (all of which succeed because
the graph is retained) accumulate additively: each leaf gradient is 3 times
the single-pass gradient, and in particular
`b.grad = [[3.0,3.75],[4.5,5.25]] = 3 * [[1.0,1.25],[1.5,1.75]]`. -/
theorem C3_gradient_accumulation :
    leafAccum 3 = (Mat2.smul 3 backwardE.gA, Mat2.smul 3 backwardE.gB)
    ∧ (leafAccum 3).2 = ⟨3, 15/4, 9/2, 21/4⟩
    ∧ backwardE.gB = ⟨1, 5/4, 3/2, 7/4⟩
    ∧ Mat2.smul 3 ⟨1, 5/4, 3/2, 7/4⟩ = ⟨3, 15/4, 9/2, 21/4⟩
    ∧ retainChain = .ok ⟨true⟩ := by
  refine ⟨?_, ?_, ?_, ?_, rfl⟩
  · norm_num [leafAccum, accumStep, backwardE, gradS, gradM, evalM, eExpr,
      dExpr, cExpr, aVal, bVal, Mat2.add, Mat2.hmul, Mat2.const, Mat2.zero,
      Mat2.smul, Grads.merge, Prod.ext_iff]
  · norm_num [leafAccum, accumStep, backwardE, gradS, gradM, evalM, eExpr,
      dExpr, cExpr, aVal, bVal, Mat2.add, Mat2.hmul, Mat2.const, Mat2.zero,
      Grads.merge]
  · norm_num [backwardE, gradS, gradM, evalM, eExpr, dExpr, cExpr, aVal, bVal,
      Mat2.add, Mat2.hmul, Mat2.const, Mat2.zero, Grads.merge]
  · norm_num [Mat2.smul]

/-- Claim C4: `torch.tensor(arr_np)` copies while `tens.numpy()` aliases:
for any initial contents of the six-element `arr_np` buffer, the write
`tens[0,0] = 10.0` leaves every element read through `arr_np` unchanged,
while after `arr_from_tens = tens.numpy()` the write `arr_from_tens[0,1] =
20.0` is visible when reading `tens[0,1]` (row-major indices 0 and 1). -/
theorem C4_tensor_copies_numpy_views :
    ∀ (v0 v1 v2 v3 v4 v5 : ℚ) (i : ℕ),
      readAt (store2 [v0, v1, v2, v3, v4, v5]) arrNpView i
          = [v0, v1, v2, v3, v4, v5].getD i 0
      ∧ readAt (store2 [v0, v1, v2, v3, v4, v5])
          (tensView [v0, v1, v2, v3, v4, v5]) 0 = 10
      ∧ readAt (store3 [v0, v1, v2, v3, v4, v5])
          (tensView [v0, v1, v2, v3, v4, v5]) 1 = 20 :=
  fun _ _ _ _ _ _ _ => ⟨rfl, rfl, rfl⟩

/-- Claim C5 (counterexample): the notebooks do share mutable state beyond
variable reassignment: the write `arr_from_tens[0,1] = 20.0`, performed
through the variable `arr_from_tens`, changes the value observed through the
distinct variable `tens` from 0 to 20 (contents standing in for the random
initial array). -/
theorem C5_shared_mutation_counterexample :
    ("arr_from_tens" : String) ≠ "tens"
    ∧ store3 arrZeros = writeAt (store2 arrZeros) (lookupVar "arr_from_tens") 1 20
    ∧ readAt (store2 arrZeros) (lookupVar "tens") 1 = 0
    ∧ readAt (store3 arrZeros) (lookupVar "tens") 1 = 20
    ∧ (20 : ℚ) ≠ 0 :=
  ⟨by decide, rfl, rfl, rfl, by norm_num⟩

/-- Claim C5 (amended): in-place writes are observable through another
variable exactly via aliasing views of the same storage: a write through a
view is invisible through every view on a different storage, while the
same-storage aliases `tens` / `arr_from_tens` do observe each other's
writes. -/
theorem C5_aliasing_frame :
    (∀ (s : Store) (v w : TView) (i j : ℕ) (q : ℚ), v.sid ≠ w.sid →
       readAt (writeAt s w j q) v i = readAt s v i)
    ∧ (lookupVar "arr_from_tens").sid = (lookupVar "tens").sid
    ∧ readAt (store3 arrZeros) (lookupVar "tens") 1 = 20 := by
  refine ⟨?_, rfl, rfl⟩
  intro s v w i j q h
  simp [readAt, writeAt, List.getD]
  rw [List.getElem?_set_ne (by omega)]

/-- Witness for `C5_aliasing_frame`: a concrete two-buffer store where a
write through a view on buffer 1 leaves a read through buffer 0 unchanged. -/
theorem C5_aliasing_frame_witness :
    readAt (writeAt ⟨[[1], [2]]⟩ ⟨1⟩ 0 5) ⟨0⟩ 0 = readAt ⟨[[1], [2]]⟩ ⟨0⟩ 0 :=
  C5_aliasing_frame.1 ⟨[[1], [2]]⟩ ⟨0⟩ ⟨1⟩ 0 0 5 (by decide)

/-- Claim C6 (counterexample): the authored code is not a literally
straight-line sequence: `03_autograd.ipynb` contains the loop
`for i in range(3): e.backward(retain_graph=True)` and the loop
`while y.data.norm() < 12: y = y * 1.2`. -/
theorem C6_loops_exist_counterexample :
    ((cells02 ++ cells03).all (fun c => c.all Op.isStraight)) = false
    ∧ Op.forRange 3 [SOp.inPlaceWrite] ∈ allOps cells03
    ∧ Op.whileData [SOp.assign] ∈ allOps cells03 := by
  refine ⟨by decide, by decide, by decide⟩

/-- Claim C6 (amended): every cell of `02_on_tensors.ipynb` is straight-line
and `03_autograd.ipynb` contains exactly two loop statements; the execution
of both loops on their actual inputs is equivalent to a fixed loop-free
sequence of library calls — the `for` loop to three consecutive backward
accumulations, and the `while` loop to eight consecutive `y * 1.2`
multiplications. -/
theorem C6_loop_free_unrolling :
    (cells02.all (fun c => c.all Op.isStraight)) = true
    ∧ ((allOps cells03).countP (fun o => !o.isStraight)) = 2
    ∧ leafAccum 3 = accumStep (accumStep (accumStep (Mat2.zero, Mat2.zero)))
    ∧ (dynLoop 9 3).2
        = mulStep (mulStep (mulStep (mulStep (mulStep (mulStep (mulStep
            (mulStep 3))))))) := by
  refine ⟨by decide, by decide, rfl, ?_⟩
  norm_num [dynLoop, mulStep, abs_of_pos]

/-- Claim C7: every artifact produced by any statement of either notebook is
printed output — the transcribed cells contain no file write, network
connection, or CLI surface, and do produce printed output. -/
theorem C7_only_printed_artifacts :
    (((allOps (cells02 ++ cells03)).flatMap Op.artifacts).all
        (fun a => a == Artifact.printedOutput)) = true
    ∧ Artifact.printedOutput ∈ (allOps (cells02 ++ cells03)).flatMap Op.artifacts
    ∧ ((cells02 ++ cells03).all (fun c => c.all Op.onlyPrinted)) = true := by
  refine ⟨by decide, by decide, by decide⟩

/-- Claim C8: `requires_grad` propagates through every operation: if one
operand of `+` or `*` requires grad then so does the result, and with the
leaves `a`, `b` created with `requires_grad=True`, each of `c`, `d` and `e`
has `requires_grad = True` as the notebook prints. -/
theorem C8_requires_grad_propagation :
    (∀ (ra rb : Bool) (x y : MExpr), reqM ra rb x = true →
       reqM ra rb (.madd x y) = true ∧ reqM ra rb (.mmul x y) = true
       ∧ reqM ra rb (.madd y x) = true ∧ reqM ra rb (.mmul y x) = true)
    ∧ reqM true true cExpr = true
    ∧ reqM true true dExpr = true
    ∧ reqS true true eExpr = true := by
  refine ⟨?_, by decide, by decide, by decide⟩
  intro ra rb x y h
  simp [reqM, h]

/-- Witness for `C8_requires_grad_propagation`: the leaf `a` requires grad,
so `c = a + b` requires grad. -/
theorem C8_requires_grad_propagation_witness :
    reqM true true (MExpr.madd MExpr.leafA MExpr.leafB) = true :=
  (C8_requires_grad_propagation.1 true true MExpr.leafA MExpr.leafB rfl).1

/-- Claim C9: after `e.backward()`, `.grad` is populated exactly on the
leaves `a`, `b` and on the `retain_grad()`-marked `d`: `c.grad` is `None`
for every gradient the engine could deliver, `d.grad` is the retained
adjoint `[[0.25,0.25],[0.25,0.25]]` recorded by the backward traversal, and
before any backward call `b.grad` is `None`. -/
theorem C9_grad_population :
    gradBeforeBackward bMeta = none
    ∧ (∀ v : Mat2, gradAfterBackward cMeta v = none)
    ∧ backwardE.retained = [Mat2.const (1/4)]
    ∧ gradAfterBackward dMeta (Mat2.const (1/4)) = some (Mat2.const (1/4))
    ∧ gradAfterBackward aMeta backwardE.gA = some backwardE.gA
    ∧ gradAfterBackward bMeta backwardE.gB = some backwardE.gB
    ∧ Mat2.const (1/4) = ⟨1/4, 1/4, 1/4, 1/4⟩ := by
  refine ⟨rfl, fun v => rfl, ?_, rfl, rfl, rfl, rfl⟩
  norm_num [backwardE, gradS, gradM, evalM, eExpr, dExpr, cExpr, aVal, bVal,
    Mat2.add, Mat2.hmul, Mat2.const, Mat2.zero, Grads.merge]

/-- Claim C10: the dynamic-graph loop terminates: `y` starts at
`sum([1.0, 2.0]) = 3`, each iteration multiplies it by `1.2 = 6/5`, and the
loop exits after exactly 8 iterations with
`y = 3 * 1.2^8 = 5038848/390625 ≈ 12.899 ≥ 12`, the value after 7
iterations still being below 12. -/
theorem C10_dynamic_loop_terminates :
    xVec.sum = 3
    ∧ (∀ y : ℚ, mulStep y = y * (6/5))
    ∧ dynLoop 9 3 = (8, 5038848/390625)
    ∧ (3 : ℚ) * (6/5)^8 = 5038848/390625
    ∧ (12 : ℚ) ≤ 5038848/390625
    ∧ (3 : ℚ) * (6/5)^7 < 12 := by
  refine ⟨by norm_num [xVec], fun y => rfl, ?_, by norm_num, by norm_num,
    by norm_num⟩
  norm_num [dynLoop, mulStep, abs_of_pos]
